import Mathlib

/-
Verification of the AI_SOC alert-triage core: a shallow embedding of the
feature extractor, classifier gateway, language-model response parser,
triage orchestrator endpoints, vector-store query and embedding engine,
with theorems checking the natural-language specification against it.
Python floats are modelled as rationals; optional fields as Option;
Python truthiness of optional strings/ints is made explicit.
-/

namespace AISOC

/-- Python truthiness of an optional string: present and non-empty. -/
def truthyStr : Option String → Bool
  | none => false
  | some s => !s.isEmpty

/-- Python truthiness of an optional natural number: present and nonzero. -/
def truthyNat : Option Nat → Bool
  | none => false
  | some n => n != 0

/-- Value of an optional number field, zero when absent (float conversion). -/
def optRat : Option Nat → Rat
  | none => 0
  | some n => (n : Rat)

/-- The structured network-flow payload inside an alert's full_log,
modelled as an association list (a Python dict of numeric fields). -/
structure FullLog where
  network_flow : List (String × Rat)
deriving Repr, DecidableEq

/-- SecurityAlert (models.py): the fields read by the ML client and the
triage pipeline. Optional fields are Option; rule_level is the bounded
severity (0-15 at the ingestion boundary). -/
structure SecurityAlert where
  alert_id : String
  rule_level : Option Nat := none
  source_ip : Option String := none
  dest_ip : Option String := none
  source_port : Option Nat := none
  dest_port : Option Nat := none
  user : Option String := none
  process : Option String := none
  full_log : Option FullLog := none
deriving Repr, DecidableEq

/-- Python dict.get with a default value, over an association list. -/
def dictGet (d : List (String × Rat)) (k : String) (dflt : Rat) : Rat :=
  match d.find? (fun p => p.1 == k) with
  | some p => p.2
  | none => dflt

/-- Pad a list with zeros up to length n (the while-append loop in
_extract_network_features). -/
def padTo (l : List Rat) (n : Nat) : List Rat :=
  l ++ List.replicate (n - l.length) 0

/-- The five CICIDS2017 fields read from the network_flow dict by
_extract_network_features (ml_client.py lines 97-105). -/
def flowF5 (fl : FullLog) : List Rat :=
  [dictGet fl.network_flow "flow_duration" 0,
   dictGet fl.network_flow "total_fwd_packets" 0,
   dictGet fl.network_flow "total_bwd_packets" 0,
   dictGet fl.network_flow "total_length_fwd_packets" 0,
   dictGet fl.network_flow "total_length_bwd_packets" 0]

/-- The flow branch of MLInferenceClient._extract_network_features
(ml_client.py lines 92-112): when full_log carries a non-empty
network_flow dict, read the five named CICIDS2017 fields, pad to 77
and truncate to 77. Returns none when that branch is not taken. -/
def flowFeatures (alert : SecurityAlert) : Option (List Rat) :=
  match alert.full_log with
  | some fl =>
    if fl.network_flow.isEmpty then none
    else some ((padTo (flowF5 fl) 77).take 77)
  | none => none

/-- Python expression 1.0 if b else 0.0, used for the indicator flags. -/
def flag (b : Bool) : Rat := if b then 1 else 0

/-- The synthetic branch of MLInferenceClient._extract_network_features
(ml_client.py lines 116-138): features = [0.0]*77 then in-place
assignments guarded by Python truthiness of the alert fields. -/
def syntheticFeatures (alert : SecurityAlert) : List Rat :=
  let features : List Rat := List.replicate 77 0
  let features :=
    match alert.rule_level with
    | some lv => if lv != 0 then (features.set 0 (lv : Rat)).set 1 ((lv : Rat) / 15) else features
    | none => features
  let features :=
    match alert.source_port with
    | some p => if p != 0 then features.set 2 (p : Rat) else features
    | none => features
  let features :=
    match alert.dest_port with
    | some p => if p != 0 then features.set 3 (p : Rat) else features
    | none => features
  let features := features.set 4 (flag (truthyStr alert.source_ip))
  let features := features.set 5 (flag (truthyStr alert.dest_ip))
  let features := features.set 6 (flag (truthyStr alert.user))
  let features := features.set 7 (flag (truthyStr alert.process))
  features

/-- MLInferenceClient._extract_network_features (ml_client.py lines 77-145):
flow features when a non-empty network_flow payload exists, otherwise the
synthetic vector when source_ip, dest_ip or rule_level is truthy,
otherwise none. -/
def extract_network_features (alert : SecurityAlert) : Option (List Rat) :=
  match flowFeatures alert with
  | some fs => some fs
  | none =>
    if truthyStr alert.source_ip || truthyStr alert.dest_ip || truthyNat alert.rule_level then
      some (syntheticFeatures alert)
    else
      none

/-- Spec-side description of the synthetic vector, slot by slot: raw
severity in slot 0, severity divided by 15 in slot 1, port numbers in
slots 2-3, the four presence flags in slots 4-7, zero elsewhere. -/
def specSyntheticSlot (alert : SecurityAlert) (i : Fin 77) : Rat :=
  if i.val = 0 then optRat alert.rule_level
  else if i.val = 1 then optRat alert.rule_level / 15
  else if i.val = 2 then optRat alert.source_port
  else if i.val = 3 then optRat alert.dest_port
  else if i.val = 4 then flag (truthyStr alert.source_ip)
  else if i.val = 5 then flag (truthyStr alert.dest_ip)
  else if i.val = 6 then flag (truthyStr alert.user)
  else if i.val = 7 then flag (truthyStr alert.process)
  else 0

/-- An alert whose only usable metadata is a user name: no flow payload,
no addresses, no severity. -/
def userOnlyAlert : SecurityAlert :=
  { alert_id := "user-only-001", user := some "admin" }

/-- Read slot i of a feature vector, zero when out of range (the index
arithmetic of the Python list assignments, kept explicit). -/
def slot : List Rat → Nat → Rat
  | [], _ => 0
  | x :: _, 0 => x
  | _ :: xs, n+1 => slot xs n

theorem slot_set_self (l : List Rat) (i : Nat) (v : Rat) (h : i < l.length) :
    slot (l.set i v) i = v := by
  induction l generalizing i with
  | nil => simp at h
  | cons x xs ih =>
    cases i with
    | zero => rfl
    | succ n => exact ih n (by simpa using h)

theorem slot_set_ne (l : List Rat) (i j : Nat) (v : Rat) (h : i ≠ j) :
    slot (l.set i v) j = slot l j := by
  induction l generalizing i j with
  | nil => rfl
  | cons x xs ih =>
    cases i with
    | zero =>
      cases j with
      | zero => exact absurd rfl h
      | succ m => rfl
    | succ n =>
      cases j with
      | zero => rfl
      | succ m => exact ih n m (fun hnm => h (by omega))

theorem slot_replicate (n i : Nat) : slot (List.replicate n 0) i = 0 := by
  induction n generalizing i with
  | zero => rfl
  | succ m ih =>
    cases i with
    | zero => rfl
    | succ k => exact ih k

theorem syntheticFeatures_length (alert : SecurityAlert) :
    (syntheticFeatures alert).length = 77 := by
  obtain ⟨aid, rl, si, di, sp, dp, u, pr, fl⟩ := alert
  rcases rl with _ | lv <;> rcases sp with _ | p <;> rcases dp with _ | q <;>
    simp only [syntheticFeatures] <;> (try split_ifs) <;>
      simp only [List.length_set, List.length_replicate]

set_option maxHeartbeats 2000000 in
theorem slot_syntheticFeatures (a : SecurityAlert) (i : Nat) (hi : i < 77) :
    slot (syntheticFeatures a) i = specSyntheticSlot a ⟨i, hi⟩ := by
  obtain ⟨aid, rl, si, di, sp, dp, u, pr, fl⟩ := a
  rcases Nat.lt_or_ge i 8 with h8 | h8
  · rcases rl with _ | lv <;> rcases sp with _ | p <;> rcases dp with _ | q <;>
      simp only [syntheticFeatures] <;> (try split_ifs) <;> interval_cases i <;>
        (iterate 9 (try (first
          | rw [slot_set_self _ _ _ (by simp [List.length_set, List.length_replicate])]
          | rw [slot_set_ne _ _ _ _ (by omega)]
          | rw [slot_replicate]))) <;>
        simp_all [specSyntheticSlot, optRat, flag]
  · have hspec : specSyntheticSlot ⟨aid, rl, si, di, sp, dp, u, pr, fl⟩ ⟨i, hi⟩ = 0 := by
      simp only [specSyntheticSlot]
      split_ifs <;> first | omega | rfl
    rw [hspec]
    rcases rl with _ | lv <;> rcases sp with _ | p <;> rcases dp with _ | q <;>
      simp only [syntheticFeatures] <;> (try split_ifs) <;>
        (iterate 9 (try rw [slot_set_ne _ _ _ _ (by omega)])) <;> rw [slot_replicate]

theorem slot_append (l l2 : List Rat) (m : Nat) :
    slot (l ++ l2) (l.length + m) = slot l2 m := by
  induction l with
  | nil => simp
  | cons x xs ih =>
    have h : xs.length + 1 + m = (xs.length + m) + 1 := by omega
    simp only [List.cons_append, List.length_cons, h]
    exact ih

/-- An alert carrying a structured network-flow payload, used as the
witness input for the flow-extraction claim. -/
def flowAlert : SecurityAlert :=
  { alert_id := "flow-001",
    full_log := some { network_flow := [("flow_duration", 3), ("total_fwd_packets", 12)] } }

/-- An alert with a source address and a severity, used as the witness
input for the synthetic-extraction claim. -/
def ipAlert : SecurityAlert :=
  { alert_id := "ip-001", rule_level := some 10, source_ip := some "203.0.113.42" }

/-- C1 counterexample: an alert whose only usable metadata is a user name
carries no structured network-flow payload and has a user present, yet
_extract_network_features returns none — the synthetic path is only
triggered by source_ip, dest_ip or rule_level, not by user or process. -/
theorem C1_user_only_counterexample :
    userOnlyAlert.user = some "admin" ∧ userOnlyAlert.full_log = none ∧
    extract_network_features userOnlyAlert = none :=
  ⟨rfl, rfl, rfl⟩

/-- C1 (amended): for every alert with no structured network-flow payload
whose source address, destination address or severity is present (Python
truthiness), _extract_network_features returns the synthetic 77-element
vector: raw severity in slot 0, severity divided by 15 in slot 1, port
numbers in slots 2-3 when known, presence flags for source address,
destination address, user and process in slots 4-7, zeros elsewhere.
Presence of only a user or process does not trigger the synthetic path. -/
theorem C1_synthetic_vector (alert : SecurityAlert)
    (hflow : flowFeatures alert = none)
    (htrig : (truthyStr alert.source_ip || truthyStr alert.dest_ip ||
              truthyNat alert.rule_level) = true) :
    extract_network_features alert = some (syntheticFeatures alert) ∧
    (syntheticFeatures alert).length = 77 ∧
    ∀ i : Nat, (hi : i < 77) →
      slot (syntheticFeatures alert) i = specSyntheticSlot alert ⟨i, hi⟩ := by
  refine ⟨?_, syntheticFeatures_length alert, fun i hi => slot_syntheticFeatures alert i hi⟩
  simp [extract_network_features, hflow, htrig]

/-- C1 witness: the amended theorem applied to a concrete alert carrying a
source address and severity 10. -/
theorem C1_synthetic_vector_witness :
    extract_network_features ipAlert = some (syntheticFeatures ipAlert) :=
  (C1_synthetic_vector ipAlert rfl rfl).1

/-- C7: for every alert carrying a non-empty structured network-flow
payload, _extract_network_features returns exactly 77 values, with the
zero padding in every slot past the five extracted flow fields; being a
pure function of the alert, the result is the same on identical input. -/
theorem C7_flow_vector (alert : SecurityAlert) (fl : FullLog)
    (hlog : alert.full_log = some fl) (hflow : fl.network_flow ≠ []) :
    ∃ v, extract_network_features alert = some v ∧ v.length = 77 ∧
      (∀ i : Nat, 5 ≤ i → i < 77 → slot v i = 0) ∧
      ∀ a2 : SecurityAlert, a2 = alert → extract_network_features a2 = some v := by
  have hff : flowFeatures alert = some (flowF5 fl ++ List.replicate 72 0) := by
    have hlen : (padTo (flowF5 fl) 77) = flowF5 fl ++ List.replicate 72 0 := by
      simp [padTo, flowF5]
    simp only [flowFeatures, hlog]
    rw [if_neg (by simp [List.isEmpty_iff, hflow]), hlen]
    rw [List.take_of_length_le (by simp [flowF5])]
  refine ⟨flowF5 fl ++ List.replicate 72 0, ?_, by simp [flowF5], ?_, ?_⟩
  · simp [extract_network_features, hff]
  · intro i h5 h77
    obtain ⟨m, rfl⟩ : ∃ m, i = 5 + m := ⟨i - 5, by omega⟩
    calc slot (flowF5 fl ++ List.replicate 72 0) (5 + m)
        = slot (List.replicate 72 0) m := slot_append (flowF5 fl) _ m
      _ = 0 := slot_replicate 72 m
  · intro a2 h2
    subst h2
    simp [extract_network_features, hff]

/-- C7 witness: the flow-extraction theorem applied to a concrete alert
with a two-field network_flow payload. -/
theorem C7_flow_vector_witness :
    ∃ v, extract_network_features flowAlert = some v ∧ v.length = 77 ∧
      (∀ i : Nat, 5 ≤ i → i < 77 → slot v i = 0) ∧
      ∀ a2 : SecurityAlert, a2 = flowAlert → extract_network_features a2 = some v :=
  C7_flow_vector flowAlert
    { network_flow := [("flow_duration", 3), ("total_fwd_packets", 12)] }
    rfl (by simp)

/-- MLPrediction (ml_client.py lines 20-26): typed ML prediction response. -/
structure MLPrediction where
  prediction : String
  confidence : Rat
  probabilities : List (String × Rat)
  model_used : String
  inference_time_ms : Rat
deriving Repr, DecidableEq

/-- Outcome of one HTTP POST to the classifier service: a response with a
status code and, when the 200 body parses into an MLPrediction, the
payload (none models a body whose field lookups raise, caught by the
catch-all except); or a timeout; or a transport failure. -/
inductive HttpOutcome where
  | response (status : Nat) (payload : Option MLPrediction)
  | timeout
  | failure (msg : String)
deriving Repr, DecidableEq

/-- MLInferenceClient.predict_attack_type (ml_client.py lines 147-209).
The downstream service's behaviour is passed in as a function from the
requested model name to an HttpOutcome. Disabled client or failed feature
extraction returns none before any call; non-200 status, timeout,
transport failure or malformed body returns none via the except blocks,
so no exception escapes this boundary. -/
def predict_attack_type (enabled : Bool) (svc : String → HttpOutcome)
    (alert : SecurityAlert) (model_name : String) : Option MLPrediction :=
  if !enabled then none
  else
    match extract_network_features alert with
    | none => none
    | some _features =>
      match svc model_name with
      | .response status payload => if status = 200 then payload else none
      | .timeout => none
      | .failure _ => none

/-- The fixed ordered model list tried by predict_with_fallback
(ml_client.py line 226). -/
def fallbackModels : List String := ["random_forest", "xgboost", "decision_tree"]

/-- The loop of MLInferenceClient.predict_with_fallback (ml_client.py
lines 228-235) over a list of model names, also recording which models
were actually sent a predict call, in order. -/
def fallbackLoop (predict : String → Option MLPrediction) :
    List String → Option MLPrediction × List String
  | [] => (none, [])
  | m :: rest =>
    match predict m with
    | some pred => (some pred, [m])
    | none =>
      let r := fallbackLoop predict rest
      (r.1, m :: r.2)

/-- MLInferenceClient.predict_with_fallback (ml_client.py lines 211-235):
try random_forest, xgboost, decision_tree in order and return the first
non-none prediction. `predict` is the single-model predict outcome (the
method calls self.predict_attack_type); the second component is the trace
of models actually called. -/
def predict_with_fallback (predict : String → Option MLPrediction) :
    Option MLPrediction × List String :=
  fallbackLoop predict fallbackModels

/-- Spec-side description of the calls a short-circuiting fallback makes:
every model up to and including the first that succeeds, all three when
none succeeds. -/
def firstSuccessCalls (predict : String → Option MLPrediction) : List String :=
  if (predict "random_forest").isSome then ["random_forest"]
  else if (predict "xgboost").isSome then ["random_forest", "xgboost"]
  else ["random_forest", "xgboost", "decision_tree"]

/-- Outcome of the GET /health call: a status code, or an exception. -/
inductive HealthOutcome where
  | response (status : Nat)
  | failure (msg : String)
deriving Repr, DecidableEq

/-- MLInferenceClient.check_health (ml_client.py lines 59-75): false
immediately when disabled; otherwise one GET to the liveness endpoint,
true exactly on status 200 and false on any exception. The second
component records whether the liveness endpoint was called at all. -/
def check_health (enabled : Bool) (svc : HealthOutcome) : Bool × Bool :=
  if !enabled then (false, false)
  else
    match svc with
    | .response s => (s == 200, true)
    | .failure _ => (false, true)

/-- C4: predict_with_fallback tries random_forest, xgboost, decision_tree
in that order; for every outcome assignment of the single-model predict it
returns the first non-none result, calls no model after that success, and
returns none exactly when all three models yielded none. -/
theorem C4_fallback_short_circuit (predict : String → Option MLPrediction) :
    (predict_with_fallback predict).1
      = ((predict "random_forest").orElse
          (fun _ => (predict "xgboost").orElse (fun _ => predict "decision_tree"))) ∧
    (predict_with_fallback predict).2 = firstSuccessCalls predict ∧
    ((predict_with_fallback predict).1 = none ↔
      predict "random_forest" = none ∧ predict "xgboost" = none ∧
        predict "decision_tree" = none) := by
  rcases h1 : predict "random_forest" with _ | v1 <;>
    rcases h2 : predict "xgboost" with _ | v2 <;>
      rcases h3 : predict "decision_tree" with _ | v3 <;>
        simp [predict_with_fallback, fallbackLoop, fallbackModels, firstSuccessCalls,
          h1, h2, h3, Option.orElse]

/-- C6: predict_attack_type returns none, raising nothing, whenever the
client is disabled, feature extraction yields none, the service answers
with a non-200 status, the call times out, or the transport fails; the
embedding is a total function, mirroring the catch-all except blocks. -/
theorem C6_predict_none_on_failure (enabled : Bool) (svc : String → HttpOutcome)
    (alert : SecurityAlert) (model_name : String) :
    (enabled = false → predict_attack_type enabled svc alert model_name = none) ∧
    (extract_network_features alert = none →
      predict_attack_type enabled svc alert model_name = none) ∧
    (∀ s p, svc model_name = .response s p → s ≠ 200 →
      predict_attack_type enabled svc alert model_name = none) ∧
    (svc model_name = .timeout →
      predict_attack_type enabled svc alert model_name = none) ∧
    (∀ m, svc model_name = .failure m →
      predict_attack_type enabled svc alert model_name = none) := by
  refine ⟨fun he => by simp [predict_attack_type, he], ?_, ?_, ?_, ?_⟩ <;>
    cases enabled <;>
      simp [predict_attack_type] <;>
        cases hx : extract_network_features alert <;>
          simp [predict_attack_type, hx] <;>
            intro h <;> intros <;> simp_all

/-- C6 witness: the disabled client returns none for a concrete alert and
a service that would time out. -/
theorem C6_predict_none_witness :
    predict_attack_type false (fun _ => .timeout) ipAlert "random_forest" = none :=
  (C6_predict_none_on_failure false (fun _ => .timeout) ipAlert "random_forest").1 rfl

/-- C9: when the client is administratively disabled check_health returns
false without calling the liveness endpoint — even a service that would
answer 200 is reported unavailable; when enabled, one call is made and
the result is the boolean status-is-200, never an exception (the
embedding is a total function into Bool). -/
theorem C9_check_health_disabled (svc : HealthOutcome) :
    check_health false svc = (false, false) ∧
    check_health true (.response 200) = (true, true) ∧
    (∀ s : Nat, check_health true (.response s) = ((s == 200 : Bool), true)) ∧
    (∀ m : String, check_health true (.failure m) = (false, true)) := by
  refine ⟨rfl, rfl, fun s => rfl, fun m => rfl⟩

/-- SeverityLevel (models.py, values from its unit tests): the closed
severity enum. -/
inductive SeverityLevel where
  | critical | high | medium | low | info
deriving Repr, DecidableEq

/-- AlertCategory (models.py, values from its unit tests and the spec's
fixed category enum). -/
inductive AlertCategory where
  | malware | intrusion | data_exfiltration | privilege_escalation | anomaly | other
deriving Repr, DecidableEq

/-- IOC (models.py): an indicator of compromise inside a verdict. -/
structure IOC where
  ioc_type : String
  value : String
  confidence : Rat
deriving Repr, DecidableEq

/-- TriageRecommendation (models.py): one recommended action. -/
structure TriageRecommendation where
  action : String
  priority : Int
  rationale : String
deriving Repr, DecidableEq

/-- TriageResponse (models.py): the structured triage verdict. -/
structure TriageResponse where
  alert_id : String
  severity : SeverityLevel
  category : AlertCategory
  confidence : Rat
  summary : String
  detailed_analysis : String
  potential_impact : String
  is_true_positive : Bool
  iocs : List IOC := []
  mitre_techniques : List String := []
  mitre_tactics : List String := []
  recommendations : List TriageRecommendation
  investigation_priority : Int
  model_used : String
  ml_prediction : Option String := none
  ml_confidence : Option Rat := none
  processing_time_ms : Nat := 0
deriving Repr, DecidableEq

/-- What one per-alert analysis resolved to inside asyncio.gather with
return_exceptions=True: an exception captured as a value, a none result,
or a verdict. -/
inductive AnalysisOutcome where
  | exc (msg : String)
  | noResult
  | verdict (v : TriageResponse)

/-- The error entry a failed outcome contributes, none for a success
(main.py lines 215-232). -/
def errorReason : AnalysisOutcome → Option String
  | .exc m => some m
  | .noResult => some "LLM analysis returned None"
  | .verdict _ => none

/-- The categorisation loop of batch_analyze (main.py lines 211-232):
successes, failed alert ids, and error entries, in input order. -/
def categorize :
    List (String × AnalysisOutcome) →
      List TriageResponse × List String × List (String × String)
  | [] => ([], [], [])
  | (aid, o) :: rest =>
    let r := categorize rest
    match o with
    | .exc m => (r.1, aid :: r.2.1, (aid, m) :: r.2.2)
    | .noResult => (r.1, aid :: r.2.1, (aid, "LLM analysis returned None") :: r.2.2)
    | .verdict v => (v :: r.1, r.2.1, r.2.2)

/-- The aggregate structure returned by the batch endpoint. -/
structure BatchResult where
  total : Nat
  successful : Nat
  failed : Nat
  results : List TriageResponse
  errors : List (String × String)

/-- batch_analyze (main.py lines 179-248): early return for the empty
list, otherwise gather every per-alert analysis (modelled by the analyze
function, exceptions captured as values) and categorise the outcomes. -/
def batch_analyze (analyze : SecurityAlert → AnalysisOutcome)
    (alerts : List SecurityAlert) : BatchResult :=
  if alerts.isEmpty then ⟨0, 0, 0, [], []⟩
  else
    let r := categorize (alerts.map (fun a => (a.alert_id, analyze a)))
    ⟨alerts.length, r.1.length, r.2.1.length, r.1, r.2.2⟩

theorem categorize_count (l : List (String × AnalysisOutcome)) :
    (categorize l).1.length + (categorize l).2.1.length = l.length := by
  induction l with
  | nil => rfl
  | cons p rest ih =>
    obtain ⟨aid, o⟩ := p
    cases o <;> simp [categorize] <;> omega

theorem categorize_errors (l : List (String × AnalysisOutcome)) :
    (categorize l).2.2 =
      l.filterMap (fun p => (errorReason p.2).map (fun r => (p.1, r))) := by
  induction l with
  | nil => rfl
  | cons p rest ih =>
    obtain ⟨aid, o⟩ := p
    cases o <;> simp [categorize, errorReason, ih]

theorem categorize_results (l : List (String × AnalysisOutcome)) :
    (categorize l).1 =
      l.filterMap (fun p =>
        match p.2 with
        | .verdict v => some v
        | _ => none) := by
  induction l with
  | nil => rfl
  | cons p rest ih =>
    obtain ⟨aid, o⟩ := p
    cases o <;> simp [categorize, ih]

/-- C2: for every list of alerts and every assignment of per-alert
outcomes, total equals the input length and equals successful plus
failed; the errors list is exactly one entry per exception or none
outcome, carrying that alert's id and a reason, in input order, leaving
every other alert's verdict in the results list; the empty input yields
all-zero statistics; and the embedding is a total function — the endpoint
always produces the aggregate structure, never a wholesale failure. -/
theorem C2_batch_statistics (analyze : SecurityAlert → AnalysisOutcome)
    (alerts : List SecurityAlert) :
    (batch_analyze analyze alerts).total = alerts.length ∧
    (batch_analyze analyze alerts).total =
      (batch_analyze analyze alerts).successful + (batch_analyze analyze alerts).failed ∧
    (batch_analyze analyze alerts).errors =
      alerts.filterMap (fun a => (errorReason (analyze a)).map (fun r => (a.alert_id, r))) ∧
    (batch_analyze analyze alerts).results =
      alerts.filterMap (fun a =>
        match analyze a with
        | .verdict v => some v
        | _ => none) ∧
    (batch_analyze analyze []).total = 0 ∧
    (batch_analyze analyze []).results = [] ∧
    (batch_analyze analyze []).errors = [] := by
  refine ⟨?_, ?_, ?_, ?_, rfl, rfl, rfl⟩
  · cases alerts with
    | nil => rfl
    | cons a rest => simp [batch_analyze]
  · cases alerts with
    | nil => rfl
    | cons a rest =>
      have hc := categorize_count ((a :: rest).map (fun x => (x.alert_id, analyze x)))
      simp only [List.length_map] at hc
      simp only [batch_analyze, List.isEmpty_cons, Bool.false_eq_true, if_false]
      omega
  · cases alerts with
    | nil => rfl
    | cons a rest =>
      simp only [batch_analyze, List.isEmpty_cons, Bool.false_eq_true, if_false,
        categorize_errors, List.filterMap_map]
      rfl
  · cases alerts with
    | nil => rfl
    | cons a rest =>
      simp only [batch_analyze, List.isEmpty_cons, Bool.false_eq_true, if_false,
        categorize_results, List.filterMap_map]
      rfl

/-- What llm_client.analyze_alert resolved to inside the /analyze
endpoint's try block: an unexpected exception, or a normal return that is
none or a verdict. -/
inductive AnalyzeOutcome where
  | raises (msg : String)
  | ok (r : Option TriageResponse)

/-- The HTTP reply the /analyze endpoint sends: the verdict with status
200, or an HTTPException with a status code and detail string. -/
inductive HttpReply where
  | success (v : TriageResponse)
  | error (status : Nat) (detail : String)
deriving Repr, DecidableEq

/-- analyze_alert endpoint (main.py lines 121-176): a none result raises
HTTPException 503 which the `except HTTPException: raise` re-raises; a
verdict gets processing_time_ms stamped and is returned with 200; any
other exception is caught once and turned into HTTPException 500 with the
exception text. elapsed_ms is the measured duration. -/
def analyze_alert (elapsed_ms : Nat) (outcome : AnalyzeOutcome) : HttpReply :=
  match outcome with
  | .raises msg => .error 500 msg
  | .ok none => .error 503 "LLM analysis failed - all models unavailable"
  | .ok (some v) => .success { v with processing_time_ms := elapsed_ms }

/-- C8: the /analyze endpoint returns the stamped verdict with success
exactly when the gateway produced one, a 503 unavailable error exactly
when the gateway returned none, and converts any exception raised during
orchestration into a single 500 error carrying its message. -/
theorem C8_analyze_endpoint (elapsed_ms : Nat) (outcome : AnalyzeOutcome) :
    (∀ v, outcome = .ok (some v) →
      analyze_alert elapsed_ms outcome = .success { v with processing_time_ms := elapsed_ms }) ∧
    (analyze_alert elapsed_ms outcome =
        .error 503 "LLM analysis failed - all models unavailable" ↔ outcome = .ok none) ∧
    (∀ m, outcome = .raises m → analyze_alert elapsed_ms outcome = .error 500 m) ∧
    (∀ s d, analyze_alert elapsed_ms outcome = .error s d → s = 503 ∨ s = 500) := by
  refine ⟨?_, ⟨?_, ?_⟩, ?_, ?_⟩
  · intro v hv
    subst hv
    rfl
  · intro h
    rcases outcome with m | r
    · simp only [analyze_alert, HttpReply.error.injEq] at h
      omega
    · rcases r with _ | v
      · rfl
      · exact HttpReply.noConfusion h
  · intro h
    subst h
    rfl
  · intro m hm
    subst hm
    rfl
  · intro s d h
    rcases outcome with m | r
    · simp only [analyze_alert, HttpReply.error.injEq] at h
      omega
    · rcases r with _ | v
      · simp only [analyze_alert, HttpReply.error.injEq] at h
        omega
      · exact HttpReply.noConfusion h

/-- C8 witness: the endpoint theorem applied at a gateway that returned
none, giving the 503 unavailable reply. -/
theorem C8_analyze_endpoint_witness :
    analyze_alert 5 (.ok none) = .error 503 "LLM analysis failed - all models unavailable" :=
  (C8_analyze_endpoint 5 (.ok none)).2.1.mpr rfl

/-- One raw result row of a ChromaDB collection.query response: document,
metadata and distance, rows arriving in the store's native ascending
distance order. -/
structure QueryHit where
  document : String
  metadata : List (String × String)
  distance : Rat
deriving Repr, DecidableEq

/-- One entry of VectorStore.query's return value. -/
structure RetrievalResult where
  document : String
  metadata : List (String × String)
  similarity_score : Rat
deriving Repr, DecidableEq

/-- The similarity conversion and result row of vector_store.py lines
224-233: similarity = 1 - distance / 2. -/
def toRetrieval (h : QueryHit) : RetrievalResult :=
  { document := h.document, metadata := h.metadata, similarity_score := 1 - h.distance / 2 }

/-- The filtering loop of VectorStore.query (vector_store.py lines
212-233): keep a row exactly when its converted similarity reaches
min_similarity, preserving the store's row order. -/
def filterResults (min_similarity : Rat) : List QueryHit → List RetrievalResult
  | [] => []
  | h :: t =>
    let similarity := 1 - h.distance / 2
    if similarity ≥ min_similarity then
      { document := h.document, metadata := h.metadata, similarity_score := similarity } ::
        filterResults min_similarity t
    else
      filterResults min_similarity t

/-- VectorStore.query (vector_store.py lines 170-241), from the store
response onward: an empty response short-circuits to the empty list
(lines 215-217), otherwise the rows are converted and threshold-filtered. -/
def VectorStore_query (hits : List QueryHit) (min_similarity : Rat) : List RetrievalResult :=
  if hits.isEmpty then [] else filterResults min_similarity hits

theorem filterResults_eq_filter_map (min_similarity : Rat) (hits : List QueryHit) :
    filterResults min_similarity hits =
      (hits.map toRetrieval).filter (fun r => min_similarity ≤ r.similarity_score) := by
  induction hits with
  | nil => rfl
  | cons h t ih =>
    simp only [filterResults, List.map_cons, List.filter_cons, toRetrieval, ge_iff_le]
    by_cases hc : min_similarity ≤ 1 - h.distance / 2
    · simp [hc, ih]
    · simp [hc, ih]

/-- C3: VectorStore.query converts each store distance d to similarity
1 - d/2, returns exactly the rows whose similarity reaches
min_similarity in the store's original order (a filter of the converted
row list, no re-sort), hence ascending distances yield descending
similarities; an empty store response yields the empty list, not an
error. -/
theorem C3_query_similarity (hits : List QueryHit) (min_similarity : Rat) :
    VectorStore_query hits min_similarity =
      (hits.map toRetrieval).filter (fun r => min_similarity ≤ r.similarity_score) ∧
    (hits.Pairwise (fun a b => a.distance ≤ b.distance) →
      (VectorStore_query hits min_similarity).Pairwise
        (fun a b => b.similarity_score ≤ a.similarity_score)) ∧
    VectorStore_query [] min_similarity = [] := by
  have heq : VectorStore_query hits min_similarity =
      (hits.map toRetrieval).filter (fun r => min_similarity ≤ r.similarity_score) := by
    cases hits with
    | nil => rfl
    | cons h t => simpa [VectorStore_query] using filterResults_eq_filter_map min_similarity (h :: t)
  refine ⟨heq, ?_, rfl⟩
  intro hasc
  rw [heq]
  have hmap : (hits.map toRetrieval).Pairwise
      (fun a b => b.similarity_score ≤ a.similarity_score) := by
    refine List.Pairwise.map toRetrieval ?_ hasc
    intro a b hab
    simp only [toRetrieval]
    linarith
  exact hmap.sublist (List.filter_sublist _)

/-- C3 witness: a concrete two-row ascending-distance store response
keeps its descending-similarity order through the query. -/
theorem C3_query_similarity_witness :
    (VectorStore_query
        [⟨"kb-doc-1", [], 1/4⟩, ⟨"kb-doc-2", [], 1/2⟩] 0).Pairwise
      (fun a b => b.similarity_score ≤ a.similarity_score) :=
  (C3_query_similarity [⟨"kb-doc-1", [], 1/4⟩, ⟨"kb-doc-2", [], 1/2⟩] 0).2.1
    (by simp [List.pairwise_cons]; norm_num)

/-- Outcome of SentenceTransformer.encode: the embedding, or a raised
exception. -/
inductive EncodeOutcome where
  | ok (v : List Rat)
  | err (msg : String)

/-- EmbeddingEngine.embed_text (embeddings.py lines 46-65): an unloaded
model or a raised encode both fall back to the all-zero 384-dimension
vector; otherwise the encoded vector is returned. -/
def embed_text (modelLoaded : Bool) (encode : EncodeOutcome) : List Rat :=
  if !modelLoaded then List.replicate 384 0
  else
    match encode with
    | .ok v => v
    | .err _ => List.replicate 384 0

/-- C10: embed_text always returns exactly 384 values (given the
downstream model's 384-dimension contract on successful encodes) and
never raises: an unloaded model or a raised encode silently yield the
all-zero 384-dimension vector. -/
theorem C10_embed_text_total (modelLoaded : Bool) (encode : EncodeOutcome)
    (hdim : ∀ v, encode = .ok v → v.length = 384) :
    (embed_text modelLoaded encode).length = 384 ∧
    (modelLoaded = false → embed_text modelLoaded encode = List.replicate 384 0) ∧
    (∀ m, encode = .err m → embed_text modelLoaded encode = List.replicate 384 0) := by
  have hrep : (List.replicate 384 (0 : Rat)).length = 384 := by
    rw [List.length_replicate]
  refine ⟨?_, ?_, ?_⟩
  · cases modelLoaded with
    | false => exact hrep
    | true =>
      cases encode with
      | ok v => exact hdim v rfl
      | err m => exact hrep
  · intro hm
    subst hm
    rfl
  · intro m hm
    subst hm
    cases modelLoaded <;> rfl

/-- C10 witness: a raised encode on a loaded model yields the zero
vector of length 384. -/
theorem C10_embed_text_witness :
    (embed_text true (.err "CUDA out of memory")).length = 384 :=
  (C10_embed_text_total true (.err "CUDA out of memory") (fun v h => by cases h)).1

/-- A JSON value, for modelling the generative model's answer once
text-parsed. -/
inductive Json where
  | null
  | bool (b : Bool)
  | num (q : Rat)
  | str (s : String)
  | arr (items : List Json)
  | obj (fields : List (String × Json))

/-- Field lookup on a JSON object, none on any other shape. -/
def Json.getField : Json → String → Option Json
  | .obj fields, k => (fields.find? (fun p => p.1 == k)).map (fun p => p.2)
  | _, _ => none

/-- A JSON string, or none on any other shape (a wrong type). -/
def Json.asStr : Json → Option String
  | .str s => some s
  | _ => none

/-- A JSON number, or none on any other shape. -/
def Json.asNum : Json → Option Rat
  | .num q => some q
  | _ => none

/-- A JSON boolean, or none on any other shape. -/
def Json.asBool : Json → Option Bool
  | .bool b => some b
  | _ => none

/-- A JSON array, or none on any other shape. -/
def Json.asArr : Json → Option (List Json)
  | .arr items => some items
  | _ => none

/-- A JSON integer: a number with denominator one, rejecting fractions. -/
def Json.asInt : Json → Option Int
  | .num q => if q.den = 1 then some q.num else none
  | _ => none

/-- Map a severity string onto the closed enum, rejecting anything
unrecognized. -/
def severityFromString : String → Option SeverityLevel
  | "critical" => some .critical
  | "high" => some .high
  | "medium" => some .medium
  | "low" => some .low
  | "informational" => some .info
  | _ => none

/-- Map a category string onto the closed enum, rejecting anything
unrecognized. -/
def categoryFromString : String → Option AlertCategory
  | "malware" => some .malware
  | "intrusion_attempt" => some .intrusion
  | "data_exfiltration" => some .data_exfiltration
  | "privilege_escalation" => some .privilege_escalation
  | "anomaly" => some .anomaly
  | "other" => some .other
  | _ => none

/-- Parse one IOC entry of the answer's ioc list. -/
def parseIOC (j : Json) : Option IOC :=
  match (j.getField "ioc_type").bind Json.asStr,
        (j.getField "value").bind Json.asStr,
        (j.getField "confidence").bind Json.asNum with
  | some t, some v, some c => some ⟨t, v, c⟩
  | _, _, _ => none

/-- Parse one recommendation entry of the answer's recommendation list. -/
def parseRecommendation (j : Json) : Option TriageRecommendation :=
  match (j.getField "action").bind Json.asStr,
        (j.getField "priority").bind Json.asInt,
        (j.getField "rationale").bind Json.asStr with
  | some a, some p, some r => some ⟨a, p, r⟩
  | _, _, _ => none

/-- The severity field of the answer, mapped onto the enum. -/
def reqSeverity (j : Json) : Option SeverityLevel :=
  ((j.getField "severity").bind Json.asStr).bind severityFromString

/-- The category field of the answer, mapped onto the enum. -/
def reqCategory (j : Json) : Option AlertCategory :=
  ((j.getField "category").bind Json.asStr).bind categoryFromString

/-- The confidence field of the answer. -/
def reqConfidence (j : Json) : Option Rat :=
  (j.getField "confidence").bind Json.asNum

/-- The summary field of the answer. -/
def reqSummary (j : Json) : Option String :=
  (j.getField "summary").bind Json.asStr

/-- The detailed_analysis field of the answer. -/
def reqDetailed (j : Json) : Option String :=
  (j.getField "detailed_analysis").bind Json.asStr

/-- The potential_impact field of the answer. -/
def reqImpact (j : Json) : Option String :=
  (j.getField "potential_impact").bind Json.asStr

/-- The is_true_positive field of the answer. -/
def reqTruePositive (j : Json) : Option Bool :=
  (j.getField "is_true_positive").bind Json.asBool

/-- The ioc list of the answer, each entry fully parsed. -/
def reqIocs (j : Json) : Option (List IOC) :=
  ((j.getField "iocs").bind Json.asArr).bind (List.mapM parseIOC)

/-- The MITRE technique list of the answer. -/
def reqTechniques (j : Json) : Option (List String) :=
  ((j.getField "mitre_techniques").bind Json.asArr).bind (List.mapM Json.asStr)

/-- The MITRE tactic list of the answer. -/
def reqTactics (j : Json) : Option (List String) :=
  ((j.getField "mitre_tactics").bind Json.asArr).bind (List.mapM Json.asStr)

/-- The recommendation list of the answer, each entry fully parsed. -/
def reqRecommendations (j : Json) : Option (List TriageRecommendation) :=
  ((j.getField "recommendations").bind Json.asArr).bind (List.mapM parseRecommendation)

/-- The investigation_priority field of the answer. -/
def reqPriority (j : Json) : Option Int :=
  (j.getField "investigation_priority").bind Json.asInt

/-- Modelled from the spec: the verdict construction step of
_parse_llm_response in llm_client.py, a file whose source is not
available (only its unit tests are). Per spec section 4.3 the parsed
JSON object must supply every required field with the right type —
severity and category mapped onto the closed enums with unrecognized
values rejected — and any missing or wrongly typed field yields none,
never a partially populated verdict. -/
def buildVerdict (alert : SecurityAlert) (j : Json) (model_used : String) :
    Option TriageResponse :=
  match reqSeverity j, reqCategory j, reqConfidence j, reqSummary j, reqDetailed j,
        reqImpact j, reqTruePositive j, reqIocs j, reqTechniques j, reqTactics j,
        reqRecommendations j, reqPriority j with
  | some severity, some category, some confidence, some summary, some detailed,
    some impact, some tp, some iocs, some techniques, some tactics, some recs,
    some prio =>
      some { alert_id := alert.alert_id, severity := severity, category := category,
             confidence := confidence, summary := summary,
             detailed_analysis := detailed, potential_impact := impact,
             is_true_positive := tp, iocs := iocs, mitre_techniques := techniques,
             mitre_tactics := tactics, recommendations := recs,
             investigation_priority := prio, model_used := model_used }
  | _, _, _, _, _, _, _, _, _, _, _, _ => none

/-- The raw generative answer after the text stage: whether it arrived
wrapped in a fenced code block, and the JSON value of the unwrapped text
(none when that text is not valid JSON). -/
structure RawAnswer where
  fenced : Bool
  parsed : Option Json

/-- Modelled from the spec: _parse_llm_response of the language-model
gateway (llm_client.py, source not available). Strip the optional
fenced-code-block wrapper — so the result depends only on the unwrapped
content — then parse as a single JSON object and build the verdict;
malformed JSON yields none. -/
def parse_llm_response (alert : SecurityAlert) (raw : RawAnswer)
    (model_used : String) : Option TriageResponse :=
  match raw.parsed with
  | none => none
  | some j => buildVerdict alert j model_used

/-- Spec-side statement that the answer object carries every required
field, each with an acceptable type and value. -/
def requiredPresent (j : Json) : Bool :=
  (reqSeverity j).isSome && (reqCategory j).isSome && (reqConfidence j).isSome &&
  (reqSummary j).isSome && (reqDetailed j).isSome && (reqImpact j).isSome &&
  (reqTruePositive j).isSome && (reqIocs j).isSome && (reqTechniques j).isSome &&
  (reqTactics j).isSome && (reqRecommendations j).isSome && (reqPriority j).isSome

theorem buildVerdict_isSome (alert : SecurityAlert) (j : Json) (model_used : String) :
    (buildVerdict alert j model_used).isSome = requiredPresent j := by
  unfold buildVerdict requiredPresent
  cases reqSeverity j with
  | none => simp
  | some x1 =>
    cases reqCategory j with
    | none => simp
    | some x2 =>
      cases reqConfidence j with
      | none => simp
      | some x3 =>
        cases reqSummary j with
        | none => simp
        | some x4 =>
          cases reqDetailed j with
          | none => simp
          | some x5 =>
            cases reqImpact j with
            | none => simp
            | some x6 =>
              cases reqTruePositive j with
              | none => simp
              | some x7 =>
                cases reqIocs j with
                | none => simp
                | some x8 =>
                  cases reqTechniques j with
                  | none => simp
                  | some x9 =>
                    cases reqTactics j with
                    | none => simp
                    | some x10 =>
                      cases reqRecommendations j with
                      | none => simp
                      | some x11 =>
                        cases reqPriority j with
                        | none => simp
                        | some x12 => simp

/-- C5: the response parser returns none on malformed JSON and on any
answer lacking a required field (or carrying it with a wrong type), and
returns a verdict only when the parsed object supplies every required
field — by construction that verdict carries severity, category,
confidence and a recommendation list, never a partial population; the
result is independent of whether the answer arrived fenced. -/
theorem C5_parse_all_or_nothing (alert : SecurityAlert) (raw : RawAnswer)
    (model_used : String) :
    (raw.parsed = none → parse_llm_response alert raw model_used = none) ∧
    (∀ j, raw.parsed = some j → requiredPresent j = false →
      parse_llm_response alert raw model_used = none) ∧
    (∀ v, parse_llm_response alert raw model_used = some v →
      ∃ j, raw.parsed = some j ∧ requiredPresent j = true) ∧
    (∀ b, parse_llm_response alert ⟨b, raw.parsed⟩ model_used =
      parse_llm_response alert raw model_used) := by
  refine ⟨?_, ?_, ?_, fun b => rfl⟩
  · intro h
    simp [parse_llm_response, h]
  · intro j hj hreq
    simp only [parse_llm_response, hj]
    have hb := buildVerdict_isSome alert j model_used
    rw [hreq] at hb
    exact Option.not_isSome_iff_eq_none.mp (by simp [hb])
  · intro v hv
    cases hj : raw.parsed with
    | none => simp [parse_llm_response, hj] at hv
    | some j =>
      refine ⟨j, rfl, ?_⟩
      have hb := buildVerdict_isSome alert j model_used
      simp only [parse_llm_response, hj] at hv
      rw [hv] at hb
      simpa using hb.symm

/-- C5 witness: a syntactically invalid answer (no JSON value) parses to
none. -/
theorem C5_parse_all_or_nothing_witness :
    parse_llm_response ipAlert ⟨false, none⟩ "foundation-sec-8b" = none :=
  (C5_parse_all_or_nothing ipAlert ⟨false, none⟩ "foundation-sec-8b").1 rfl

end AISOC
